/-
Verification of the KD_Lib base classes (knowledge-distillation training
template `BaseClass` in KD_Lib/common/base_class.py and quantization
template `Quantizer` in KD_Lib/Quantization/common/base_class.py).

Shallow embedding conventions:
  * model weights (`state_dict`) are an abstract type `W`; `deepcopy` of a
    state dict is value copy, which in Lean's value semantics is identity;
  * the framework primitives the code delegates to are abstract parameters:
    `pred w d` is the argmax of the model's output on item `d` at weights `w`
    (i.e. `model(data).argmax(dim=1)` per item), `lossOf w b` is the scalar
    loss on batch `b` at weights `w` (`F.cross_entropy` for the teacher,
    `calculate_kd_loss` for the student), and `step w b` is the net effect of
    `zero_grad(); loss.backward(); optimizer.step()` on the weights;
  * Python floats are idealized as `Rat`; Python division raising
    `ZeroDivisionError` is modelled by `pydiv` returning `Except`;
  * a data loader yields batches, each a list of (input, label) pairs, and
    `len(loader.dataset)` is a separate `datasetLen` field;
  * `raise` is modelled by methods returning `Except PyErr _` together with
    the (unchanged) receiver state.
-/
import Mathlib

/-- Python exceptions raised by the code under verification. -/
inductive PyErr where
  | notImplementedError
  | zeroDivisionError
deriving DecidableEq, Repr

/-- Python `/` on an integer count and an integer length: raises
`ZeroDivisionError` on a zero denominator, otherwise true division. -/
def pydiv (a b : Nat) : Except PyErr Rat :=
  if b = 0 then .error .zeroDivisionError else .ok ((a : Rat) / (b : Rat))

/-- The `training` flag of a torch module: `model.train()` sets `trainMode`,
`model.eval()` sets `evalMode`. -/
inductive Mode where
  | trainMode
  | evalMode
deriving DecidableEq, Repr

/-- A torch module as the code observes it: its parameters (`state_dict`)
and its train/eval flag. -/
structure Model (W : Type) where
  weights : W
  mode : Mode
deriving DecidableEq, Repr

/-- A torch `DataLoader`: iterating it yields `batches` (each batch a list
of (input, label) pairs with labels as class indices), and
`len(loader.dataset)` is `datasetLen`. -/
structure DataLoader (D : Type) where
  batches : List (List (D × Nat))
  datasetLen : Nat

/-- `pred.eq(label.view_as(pred)).sum().item()` for one batch: the number of
items whose argmax prediction at weights `w` equals the label. -/
def batchCorrect {W D : Type} (pred : W → D → Nat) (w : W)
    (b : List (D × Nat)) : Nat :=
  b.countP (fun s => pred w s.1 == s.2)

/-- Observable events of one `train_teacher` / `train_student` call, used to
state the order of operations. -/
inductive Ev where
  | forward    -- `out = model(data)` (student: both forward passes)
  | lossComp   -- `loss = ...`
  | zeroGrad   -- `optimizer.zero_grad()`
  | backward   -- `loss.backward()`
  | optStep    -- `optimizer.step()`
  | trackBest  -- the per-epoch `if epoch_acc > best_acc` best-weights update
  | loadBest   -- `model.load_state_dict(best_weights)`
  | saveEv     -- `torch.save(model.state_dict(), save_model_pth)`
  | plotEv     -- `plt.plot(loss_arr)`
deriving DecidableEq, Repr

section TrainingLoop

variable {W D : Type}
variable (pred : W → D → Nat)
variable (lossOf : W → List (D × Nat) → Rat)
variable (step : W → List (D × Nat) → W)

/-- Accumulator of the inner batch loop: current weights, `epoch_loss`,
`correct`, and the event trace so far. -/
structure BatchAcc (W : Type) where
  w : W
  epochLoss : Rat
  correct : Nat
  tr : List Ev

/-- One iteration of `for (data, label) in self.train_loader`: forward pass,
prediction counting, loss computation, `zero_grad`/`backward`/`step`, and
`epoch_loss += loss`.  `correct` and the loss use the pre-step weights, as in
the source. -/
def runBatch (acc : BatchAcc W) (b : List (D × Nat)) : BatchAcc W :=
  { w := step acc.w b
    epochLoss := acc.epochLoss + lossOf acc.w b
    correct := acc.correct + batchCorrect pred acc.w b
    tr := acc.tr ++ [.forward, .lossComp, .zeroGrad, .backward, .optStep] }

/-- State across epochs: current model weights, the
`best_..._model_weights` snapshot, `best_acc`, `loss_arr`, and the trace. -/
structure LoopState (W : Type) where
  w : W
  bestW : W
  bestAcc : Rat
  lossArr : List Rat
  tr : List Ev

/-- The body of `for ep in range(epochs)`: run the batch loop, compute
`epoch_acc = correct / length_of_dataset`, update the best snapshot when the
accuracy strictly exceeds the running best, then append to `loss_arr`. -/
def runEpoch (batches : List (List (D × Nat))) (datasetLen : Nat)
    (s : LoopState W) : LoopState W :=
  let a := batches.foldl (runBatch pred lossOf step)
    { w := s.w, epochLoss := 0, correct := 0, tr := s.tr }
  let epochAcc : Rat := (a.correct : Rat) / (datasetLen : Rat)
  if epochAcc > s.bestAcc then
    { w := a.w, bestW := a.w, bestAcc := epochAcc
      lossArr := s.lossArr ++ [a.epochLoss], tr := a.tr ++ [.trackBest] }
  else
    { w := a.w, bestW := s.bestW, bestAcc := s.bestAcc
      lossArr := s.lossArr ++ [a.epochLoss], tr := a.tr ++ [.trackBest] }

/-- `n` epochs of the loop body, in order (epoch `n` applied last). -/
def runEpochs (batches : List (List (D × Nat))) (datasetLen : Nat) :
    Nat → LoopState W → LoopState W
  | 0, s => s
  | n + 1, s => runEpoch pred lossOf step batches datasetLen
      (runEpochs batches datasetLen n s)

end TrainingLoop

/-- The loop state on entry of `for ep in range(epochs)`: current weights
`w0`, `best_..._model_weights = deepcopy(state_dict())` (value copy of
`w0`), `best_acc = 0.0`, empty `loss_arr`, empty trace. -/
def initState {W : Type} (w0 : W) : LoopState W :=
  { w := w0, bestW := w0, bestAcc := 0, lossArr := [], tr := [] }

section TrainingLoopB

variable {W D : Type}
variable (pred : W → D → Nat)
variable (lossOf : W → List (D × Nat) → Rat)
variable (step : W → List (D × Nat) → W)

/-- Result of a whole `train_teacher` / `train_student` call: final model
weights, best snapshot, `best_acc`, `loss_arr`, the state dict written by
`torch.save` (if any), the list handed to `plt.plot` (if any), and the
event trace. -/
structure TrainResult (W : Type) where
  finalW : W
  bestW : W
  bestAcc : Rat
  lossArr : List Rat
  saved : Option W
  plotted : Option (List Rat)
  tr : List Ev

/-- The shared shape of `train_teacher` and `train_student`:
`best_acc = 0.0`, `best_..._weights = deepcopy(state_dict())`, the epoch
loop, then `load_state_dict(best_weights)`, `torch.save` when `save_model`,
`plt.plot(loss_arr)` when `plot_losses`, in that order. -/
def trainLoop (epochs : Nat) (plotLosses saveModel : Bool)
    (loader : DataLoader D) (w0 : W) : TrainResult W :=
  let s := runEpochs pred lossOf step loader.batches loader.datasetLen
    epochs (initState w0)
  let w1 := s.bestW
  let tr1 := s.tr ++ [.loadBest]
  let savedTr : Option W × List Ev :=
    if saveModel then (some w1, tr1 ++ [.saveEv]) else (none, tr1)
  let plottedTr : Option (List Rat) × List Ev :=
    if plotLosses then (some s.lossArr, savedTr.2 ++ [.plotEv])
    else (none, savedTr.2)
  { finalW := w1, bestW := s.bestW, bestAcc := s.bestAcc
    lossArr := s.lossArr, saved := savedTr.1, plotted := plottedTr.1
    tr := plottedTr.2 }

/-- The losses computed batch by batch during one epoch, at the weights
current when each batch is processed. -/
def batchLosses : W → List (List (D × Nat)) → List Rat
  | _, [] => []
  | w, b :: bs => lossOf w b :: batchLosses (step w b) bs

/-- The correct-prediction counts computed batch by batch during one
epoch, at the weights current when each batch is processed. -/
def batchCorrects : W → List (List (D × Nat)) → List Nat
  | _, [] => []
  | w, b :: bs => batchCorrect pred w b :: batchCorrects (step w b) bs

/-- The `epoch_acc` computed at the end of an epoch entered with weights
`w`: the summed correct count divided by `len(train_loader.dataset)`. -/
def epochAcc (bs : List (List (D × Nat))) (len : Nat) (w : W) : Rat :=
  ((batchCorrects pred step w bs).sum : Rat) / (len : Rat)

/-- The events of one pass over the batches. -/
def batchTrace (bs : List (List (D × Nat))) : List Ev :=
  bs.flatMap (fun _ => [.forward, .lossComp, .zeroGrad, .backward, .optStep])

end TrainingLoopB

/-- `BaseClass.train_teacher`: the generic loop with
`lossOf = F.cross_entropy` on the batch (abstract, supplied as
`crossEntropy`) and `step` the effect of `optimizer_teacher`.  The initial
weights `w0` are `self.teacher_model.state_dict()` after
`self.teacher_model.train()`. -/
def train_teacher {W D : Type} (pred : W → D → Nat)
    (crossEntropy : W → List (D × Nat) → Rat)
    (step : W → List (D × Nat) → W)
    (epochs : Nat) (plotLosses saveModel : Bool)
    (loader : DataLoader D) (w0 : W) : TrainResult W :=
  trainLoop pred crossEntropy step epochs plotLosses saveModel loader w0

/-- `BaseClass.train_student`: the generic loop for the student weights.
`kdLoss w tw b` is `self.calculate_kd_loss(student_out, teacher_out, label)`
on batch `b` at student weights `w`, with the teacher weights `tw` fixed
(the teacher is only run forward, in eval mode); `step` is the effect of
`optimizer_student`. -/
def train_student {Ws Wt D : Type} (pred : Ws → D → Nat)
    (kdLoss : Ws → Wt → List (D × Nat) → Rat) (tw : Wt)
    (step : Ws → List (D × Nat) → Ws)
    (epochs : Nat) (plotLosses saveModel : Bool)
    (loader : DataLoader D) (w0 : Ws) : TrainResult Ws :=
  trainLoop pred (fun w b => kdLoss w tw b) step epochs plotLosses saveModel
    loader w0

section TrainingLoopE

variable {W D : Type}
variable (pred : W → D → Nat)
variable (lossOf : W → List (D × Nat) → Rat)
variable (step : W → List (D × Nat) → W)

/-- The body of `for ep in range(epochs)` with the Python division made
explicit: `epoch_acc = correct / length_of_dataset` raises
`ZeroDivisionError` when `len(train_loader.dataset)` is zero, aborting the
epoch before the best-weights update and the `loss_arr` append. -/
def runEpochE (batches : List (List (D × Nat))) (datasetLen : Nat)
    (s : LoopState W) : Except PyErr (LoopState W) :=
  let a := batches.foldl (runBatch pred lossOf step)
    { w := s.w, epochLoss := 0, correct := 0, tr := s.tr }
  match pydiv a.correct datasetLen with
  | .error e => .error e
  | .ok epochAcc =>
    if epochAcc > s.bestAcc then
      .ok { w := a.w, bestW := a.w, bestAcc := epochAcc
            lossArr := s.lossArr ++ [a.epochLoss]
            tr := a.tr ++ [.trackBest] }
    else
      .ok { w := a.w, bestW := s.bestW, bestAcc := s.bestAcc
            lossArr := s.lossArr ++ [a.epochLoss]
            tr := a.tr ++ [.trackBest] }

/-- `n` epochs of the error-aware loop body: an uncaught exception in an
epoch propagates and no further epoch runs. -/
def runEpochsE (batches : List (List (D × Nat))) (datasetLen : Nat) :
    Nat → LoopState W → Except PyErr (LoopState W)
  | 0, s => .ok s
  | n + 1, s =>
    match runEpochsE batches datasetLen n s with
    | .error e => .error e
    | .ok s' => runEpochE pred lossOf step batches datasetLen s'

/-- `trainLoop` with the Python error path kept: when an epoch raises
`ZeroDivisionError` the exception propagates out of the call and
`load_state_dict`, `torch.save` and `plt.plot` are never executed. -/
def trainLoopE (epochs : Nat) (plotLosses saveModel : Bool)
    (loader : DataLoader D) (w0 : W) : Except PyErr (TrainResult W) :=
  match runEpochsE pred lossOf step loader.batches loader.datasetLen epochs
    (initState w0) with
  | .error e => .error e
  | .ok s =>
    let w1 := s.bestW
    let tr1 := s.tr ++ [.loadBest]
    let savedTr : Option W × List Ev :=
      if saveModel then (some w1, tr1 ++ [.saveEv]) else (none, tr1)
    let plottedTr : Option (List Rat) × List Ev :=
      if plotLosses then (some s.lossArr, savedTr.2 ++ [.plotEv])
      else (none, savedTr.2)
    .ok { finalW := w1, bestW := s.bestW, bestAcc := s.bestAcc
          lossArr := s.lossArr, saved := savedTr.1, plotted := plottedTr.1
          tr := plottedTr.2 }

end TrainingLoopE

/-- `BaseClass.train_teacher` with the Python error path kept (see
`trainLoopE`). -/
def train_teacherE {W D : Type} (pred : W → D → Nat)
    (crossEntropy : W → List (D × Nat) → Rat)
    (step : W → List (D × Nat) → W)
    (epochs : Nat) (plotLosses saveModel : Bool)
    (loader : DataLoader D) (w0 : W) : Except PyErr (TrainResult W) :=
  trainLoopE pred crossEntropy step epochs plotLosses saveModel loader w0

/-- `BaseClass.train_student` with the Python error path kept (see
`trainLoopE`). -/
def train_studentE {Ws Wt D : Type} (pred : Ws → D → Nat)
    (kdLoss : Ws → Wt → List (D × Nat) → Rat) (tw : Wt)
    (step : Ws → List (D × Nat) → Ws)
    (epochs : Nat) (plotLosses saveModel : Bool)
    (loader : DataLoader D) (w0 : Ws) : Except PyErr (TrainResult Ws) :=
  trainLoopE pred (fun w b => kdLoss w tw b) step epochs plotLosses
    saveModel loader w0

/-- The `BaseClass` instance state as `__init__` creates it.  The models
carry weights and a train/eval flag; the loaders are `DataLoader`s;
`loss`, `temp`, `distl_weight`, `device` are stored scalars.  The optimizer
objects are opaque (types `OT`, `OS`). -/
structure BaseClass (Wt Ws D OT OS : Type) where
  teacher_model : Model Wt
  student_model : Model Ws
  train_loader : DataLoader D
  val_loader : DataLoader D
  optimizer_teacher : OT
  optimizer_student : OS
  loss : String
  temp : Rat
  distl_weight : Rat
  device : String

/-- `BaseClass.__init__`: stores every argument on the instance.  Note the
source stores the parameter `distil_weight` in the attribute
`self.distl_weight` (the attribute name in the source drops the second
`i`); the field keeps the source's attribute name. -/
def BaseClass.init {Wt Ws D OT OS : Type} (teacher_model : Model Wt)
    (student_model : Model Ws) (train_loader val_loader : DataLoader D)
    (optimizer_teacher : OT) (optimizer_student : OS)
    (loss : String) (temp distil_weight : Rat) (device : String) :
    BaseClass Wt Ws D OT OS :=
  { teacher_model := teacher_model
    student_model := student_model
    train_loader := train_loader
    val_loader := val_loader
    optimizer_teacher := optimizer_teacher
    optimizer_student := optimizer_student
    loss := loss
    temp := temp
    distl_weight := distil_weight
    device := device }

/-- `BaseClass.calculate_kd_loss`: the base implementation only executes
`raise NotImplementedError`; no attribute is touched, so the instance is
returned unchanged alongside the error. -/
def BaseClass.calculate_kd_loss {Wt Ws D OT OS Y : Type}
    (self : BaseClass Wt Ws D OT OS)
    (y_pred_student y_pred_teacher y_true : Y) :
    Except PyErr Rat × BaseClass Wt Ws D OT OS :=
  (.error .notImplementedError, self)

/-- `BaseClass.evaluate`: picks `deepcopy(self.teacher_model)` or
`deepcopy(self.student_model)`, calls `.eval()` on the copy, counts correct
argmax predictions over `val_loader` and divides by
`len(val_loader.dataset)`.  Because `model` is a deep copy, `model.eval()`
mutates only the local copy; in value semantics the stored fields are
untouched, so the instance is returned as-is.  The first component is the
accuracy the method prints (Python raises `ZeroDivisionError` on an empty
dataset, modelled by `pydiv`). -/
def BaseClass.evaluate {Wt Ws D OT OS : Type}
    (predT : Wt → D → Nat) (predS : Ws → D → Nat)
    (self : BaseClass Wt Ws D OT OS) (teacher : Bool) :
    Except PyErr Rat × BaseClass Wt Ws D OT OS :=
  if teacher then
    let model : Model Wt := { self.teacher_model with mode := .evalMode }
    let correct := (self.val_loader.batches.map
      (batchCorrect predT model.weights)).sum
    (pydiv correct self.val_loader.datasetLen, self)
  else
    let model : Model Ws := { self.student_model with mode := .evalMode }
    let correct := (self.val_loader.batches.map
      (batchCorrect predS model.weights)).sum
    (pydiv correct self.val_loader.datasetLen, self)

/-- A filesystem: an association of path to file contents (an abstract
type `C`). -/
abbrev FS (C : Type) := List (String × C)

/-- Writing a file: any previous file at the path is overwritten. -/
def fsWrite {C : Type} (fs : FS C) (p : String) (c : C) : FS C :=
  List.filter (fun e => e.1 ≠ p) fs ++ [(p, c)]

/-- `os.remove`. -/
def fsRemove {C : Type} (fs : FS C) (p : String) : FS C :=
  List.filter (fun e => e.1 ≠ p) fs

/-- `os.path.getsize`, given the byte size `getsize c` of contents `c`:
`none` when no file is at the path. -/
def fsGetSize {C : Type} (getsize : C → Nat) (fs : FS C) (p : String) :
    Option Nat :=
  (List.lookup p fs).map getsize

/-- The `Quantizer` instance state as `__init__` creates it.  The model and
the quantized model are opaque values of the same type `M`; `qconfig`, the
optimizer and the criterion are opaque; the loaders are `DataLoader`s
(`none` models the `None` defaults); `device` is a stored scalar. -/
structure Quantizer (M Q D OPT CR : Type) where
  model : M
  quantized_model : M
  qconfig : Q
  train_loader : Option (DataLoader D)
  test_loader : Option (DataLoader D)
  optimizer : Option OPT
  criterion : Option CR
  device : String

/-- `Quantizer.__init__`: stores every argument on the instance, and
additionally initializes `self.quantized_model = model` — the same object
as `self.model`. -/
def Quantizer.init {M Q D OPT CR : Type} (model : M) (qconfig : Q)
    (train_loader test_loader : Option (DataLoader D))
    (optimizer : Option OPT) (criterion : Option CR) (device : String) :
    Quantizer M Q D OPT CR :=
  { model := model
    quantized_model := model
    qconfig := qconfig
    train_loader := train_loader
    test_loader := test_loader
    optimizer := optimizer
    criterion := criterion
    device := device }

/-- `Quantizer.quantize`: the base implementation only executes
`raise NotImplementedError`; the instance is returned unchanged alongside
the error. -/
def Quantizer.quantize {M Q D OPT CR : Type} (self : Quantizer M Q D OPT CR) :
    Except PyErr Unit × Quantizer M Q D OPT CR :=
  (.error .notImplementedError, self)

/-- `Quantizer._get_size_of_model`: `torch.save(model.state_dict(),
"temp.p")`, read the file's size, divide by `1e6`, `os.remove("temp.p")`.
`serialize m` is the serialized state dict of `m` and `getsize` its byte
size.  Returns the reported megabyte size together with the filesystem
after the call. -/
def Quantizer.get_size_of_model {M C : Type} (serialize : M → C)
    (getsize : C → Nat) (fs : FS C) (model : M) : Rat × FS C :=
  let fs1 := fsWrite fs "temp.p" (serialize model)
  let sz : Nat := match fsGetSize getsize fs1 "temp.p" with
    | some n => n
    | none => 0
  let model_size : Rat := (sz : Rat) / 1000000
  (model_size, fsRemove fs1 "temp.p")

/-- `Quantizer.get_model_sizes`: sizes the original model, then the
quantized model, threading the filesystem; the pair of printed sizes is
returned with the final filesystem. -/
def Quantizer.get_model_sizes {M Q D OPT CR C : Type} (serialize : M → C)
    (getsize : C → Nat) (self : Quantizer M Q D OPT CR) (fs : FS C) :
    (Rat × Rat) × FS C :=
  let original := Quantizer.get_size_of_model serialize getsize fs self.model
  let quantized := Quantizer.get_size_of_model serialize getsize original.2
    self.quantized_model
  ((original.1, quantized.1), quantized.2)

/-- `Quantizer._evaluate_model`: `model.eval()`, count correct argmax
predictions over `self.test_loader`, return `correct / len_dataset`
(Python raises `ZeroDivisionError` on an empty dataset, modelled by
`pydiv`).  `testLoader` stands for `self.test_loader` (which the method
dereferences unconditionally). -/
def Quantizer.evaluate_model {M D : Type} (predQ : M → D → Nat)
    (testLoader : DataLoader D) (model : M) : Except PyErr Rat :=
  let correct := (testLoader.batches.map (batchCorrect predQ model)).sum
  pydiv correct testLoader.datasetLen

/-- `Quantizer.get_performance_statistics`: evaluates `self.model`, then
`self.quantized_model` on the test loader (elapsed wall-clock time is not
modelled); returns the pair of printed accuracies. -/
def Quantizer.get_performance_statistics {M Q D OPT CR : Type}
    (predQ : M → D → Nat) (testLoader : DataLoader D)
    (self : Quantizer M Q D OPT CR) :
    Except PyErr Rat × Except PyErr Rat :=
  (Quantizer.evaluate_model predQ testLoader self.model,
   Quantizer.evaluate_model predQ testLoader self.quantized_model)

/-- Modelled from the spec sentence of C3 (the refinement side): one epoch
is, for every batch in order, forward pass, loss computation, `zero_grad`,
`backward`, optimizer step, then best-weights tracking once after the batch
loop. -/
def specEpochTrace (numBatches : Nat) : List Ev :=
  (List.range numBatches).flatMap
    (fun _ => [.forward, .lossComp, .zeroGrad, .backward, .optStep])
    ++ [.trackBest]

/-- Modelled from the spec sentence of C3 (the refinement side): `epochs`
sequential epochs, then loading the best weights, then saving when
`save_model`, then plotting when `plot_losses`, in that order. -/
def specTrace (epochs numBatches : Nat) (plotLosses saveModel : Bool) :
    List Ev :=
  (List.range epochs).flatMap (fun _ => specEpochTrace numBatches)
    ++ [.loadBest]
    ++ (if saveModel then [.saveEv] else [])
    ++ (if plotLosses then [.plotEv] else [])

/-- The best-snapshot invariant of the epoch loop, stated for the loop
started at `s0`: at every epoch the snapshot is replaced by the current
weights exactly when the just-computed epoch accuracy strictly exceeds the
running best (and `best_acc` becomes that accuracy), otherwise snapshot and
`best_acc` are unchanged; and the running best is the maximum of the
accuracies observed so far (seeded with `s0`'s `best_acc`). -/
def BestInvariant {W D : Type} (pred : W → D → Nat)
    (lossOf : W → List (D × Nat) → Rat) (step : W → List (D × Nat) → W)
    (bs : List (List (D × Nat))) (len : Nat) (s0 : LoopState W) : Prop :=
  (∀ k,
    let s := runEpochs pred lossOf step bs len k s0
    let s' := runEpochs pred lossOf step bs len (k + 1) s0
    let acc := epochAcc pred step bs len s.w
    (acc > s.bestAcc → s'.bestW = s'.w ∧ s'.bestAcc = acc)
    ∧ (¬ acc > s.bestAcc → s'.bestW = s.bestW ∧ s'.bestAcc = s.bestAcc))
  ∧ (∀ k, (runEpochs pred lossOf step bs len k s0).bestAcc =
      ((List.range k).map (fun j =>
        epochAcc pred step bs len
          (runEpochs pred lossOf step bs len j s0).w)).foldl max s0.bestAcc)

/-- The per-epoch metric equations of the training loop: accumulated
`epoch_loss` is the sum of the per-batch losses, accumulated `correct` is
the sum of the per-batch correct counts, `epoch_acc` is that count divided
by `len(train_loader.dataset)`, each epoch appends exactly its loss sum to
`loss_arr`, and the returned loss array has length `epochs`. -/
def MetricsSpec {W D : Type} (pred : W → D → Nat)
    (lossOf : W → List (D × Nat) → Rat) (step : W → List (D × Nat) → W)
    (epochs : Nat) (pl sv : Bool) (loader : DataLoader D) (w0 : W) : Prop :=
  (∀ w : W, (loader.batches.foldl (runBatch pred lossOf step)
      (BatchAcc.mk w 0 0 [])).epochLoss =
    (batchLosses lossOf step w loader.batches).sum)
  ∧ (∀ w : W, (loader.batches.foldl (runBatch pred lossOf step)
      (BatchAcc.mk w 0 0 [])).correct =
    (batchCorrects pred step w loader.batches).sum)
  ∧ (∀ w : W, epochAcc pred step loader.batches loader.datasetLen w =
    ((loader.batches.foldl (runBatch pred lossOf step)
      (BatchAcc.mk w 0 0 [])).correct : Rat) / (loader.datasetLen : Rat))
  ∧ (∀ k, (runEpochs pred lossOf step loader.batches loader.datasetLen
        (k + 1) (initState w0)).lossArr =
      (runEpochs pred lossOf step loader.batches loader.datasetLen k
        (initState w0)).lossArr
      ++ [(batchLosses lossOf step
        (runEpochs pred lossOf step loader.batches loader.datasetLen k
          (initState w0)).w loader.batches).sum])
  ∧ (trainLoop pred lossOf step epochs pl sv loader w0).lossArr.length =
      epochs

/-- Division-safety of the accuracy computations: with a non-empty
dataset the accuracy is a well-defined value in [0,1]; with an empty
dataset the division raises `ZeroDivisionError`. -/
def C10Statement {Wt Ws D M D2 OT OS : Type} (predT : Wt → D → Nat)
    (predS : Ws → D → Nat) (s : BaseClass Wt Ws D OT OS) (t : Bool)
    (predQ : M → D2 → Nat) (tl : DataLoader D2) (m : M) : Prop :=
  (0 < s.val_loader.datasetLen → ∃ a,
    (BaseClass.evaluate predT predS s t).1 = Except.ok a ∧ 0 ≤ a ∧ a ≤ 1)
  ∧ (s.val_loader.datasetLen = 0 →
    (BaseClass.evaluate predT predS s t).1 =
      Except.error PyErr.zeroDivisionError)
  ∧ (0 < tl.datasetLen → ∃ a,
    Quantizer.evaluate_model predQ tl m = Except.ok a ∧ 0 ≤ a ∧ a ≤ 1)
  ∧ (tl.datasetLen = 0 →
    Quantizer.evaluate_model predQ tl m =
      Except.error PyErr.zeroDivisionError)

section LoopLemmas

variable {W D : Type}
variable (pred : W → D → Nat)
variable (lossOf : W → List (D × Nat) → Rat)
variable (step : W → List (D × Nat) → W)

theorem foldl_runBatch_w (bs : List (List (D × Nat))) (a0 : BatchAcc W) :
    (bs.foldl (runBatch pred lossOf step) a0).w = bs.foldl step a0.w := by
  induction bs generalizing a0 with
  | nil => rfl
  | cons b bs ih => simp only [List.foldl_cons, ih, runBatch]

theorem foldl_runBatch_epochLoss (bs : List (List (D × Nat)))
    (a0 : BatchAcc W) :
    (bs.foldl (runBatch pred lossOf step) a0).epochLoss =
      a0.epochLoss + (batchLosses lossOf step a0.w bs).sum := by
  induction bs generalizing a0 with
  | nil => simp [batchLosses]
  | cons b bs ih =>
    simp only [List.foldl_cons, ih, runBatch, batchLosses, List.sum_cons]
    ring

theorem foldl_runBatch_correct (bs : List (List (D × Nat)))
    (a0 : BatchAcc W) :
    (bs.foldl (runBatch pred lossOf step) a0).correct =
      a0.correct + (batchCorrects pred step a0.w bs).sum := by
  induction bs generalizing a0 with
  | nil => simp [batchCorrects]
  | cons b bs ih =>
    simp only [List.foldl_cons, ih, runBatch, batchCorrects, List.sum_cons]
    omega

theorem foldl_runBatch_tr (bs : List (List (D × Nat))) (a0 : BatchAcc W) :
    (bs.foldl (runBatch pred lossOf step) a0).tr = a0.tr ++ batchTrace bs := by
  induction bs generalizing a0 with
  | nil => simp [batchTrace]
  | cons b bs ih =>
    simp only [List.foldl_cons, ih, runBatch, batchTrace, List.flatMap_cons,
      List.append_assoc]

theorem runEpoch_w (bs : List (List (D × Nat))) (len : Nat)
    (s : LoopState W) :
    (runEpoch pred lossOf step bs len s).w = bs.foldl step s.w := by
  simp only [runEpoch]
  split <;> simp [foldl_runBatch_w]

theorem runEpoch_lossArr (bs : List (List (D × Nat))) (len : Nat)
    (s : LoopState W) :
    (runEpoch pred lossOf step bs len s).lossArr =
      s.lossArr ++ [(batchLosses lossOf step s.w bs).sum] := by
  simp only [runEpoch]
  split <;> simp [foldl_runBatch_epochLoss]

theorem runEpoch_tr (bs : List (List (D × Nat))) (len : Nat)
    (s : LoopState W) :
    (runEpoch pred lossOf step bs len s).tr =
      s.tr ++ batchTrace bs ++ [Ev.trackBest] := by
  simp only [runEpoch]
  split <;> simp [foldl_runBatch_tr]

theorem runEpoch_bestW (bs : List (List (D × Nat))) (len : Nat)
    (s : LoopState W) :
    (runEpoch pred lossOf step bs len s).bestW =
      if epochAcc pred step bs len s.w > s.bestAcc then bs.foldl step s.w
      else s.bestW := by
  simp only [runEpoch, epochAcc, foldl_runBatch_correct, foldl_runBatch_w,
    Nat.zero_add]
  split <;> simp_all [foldl_runBatch_w]

theorem runEpoch_bestAcc (bs : List (List (D × Nat))) (len : Nat)
    (s : LoopState W) :
    (runEpoch pred lossOf step bs len s).bestAcc =
      if epochAcc pred step bs len s.w > s.bestAcc then
        epochAcc pred step bs len s.w
      else s.bestAcc := by
  simp only [runEpoch, epochAcc, foldl_runBatch_correct, Nat.zero_add]
  split <;> simp_all

end LoopLemmas

section EpochLemmas

variable {W D : Type}
variable (pred : W → D → Nat)
variable (lossOf : W → List (D × Nat) → Rat)
variable (step : W → List (D × Nat) → W)

theorem runEpochs_zero (bs : List (List (D × Nat))) (len : Nat)
    (s : LoopState W) : runEpochs pred lossOf step bs len 0 s = s := rfl

theorem runEpochs_succ (bs : List (List (D × Nat))) (len : Nat) (k : Nat)
    (s : LoopState W) :
    runEpochs pred lossOf step bs len (k + 1) s =
      runEpoch pred lossOf step bs len (runEpochs pred lossOf step bs len k s) :=
  rfl

theorem runEpochs_lossArr_length (bs : List (List (D × Nat))) (len : Nat)
    (k : Nat) (s : LoopState W) :
    (runEpochs pred lossOf step bs len k s).lossArr.length =
      s.lossArr.length + k := by
  induction k with
  | zero => rfl
  | succ k ih =>
    rw [runEpochs_succ, runEpoch_lossArr]
    simp [ih]
    omega

theorem runEpochs_tr (bs : List (List (D × Nat))) (len : Nat) (k : Nat)
    (s : LoopState W) :
    (runEpochs pred lossOf step bs len k s).tr =
      s.tr ++ (List.replicate k (batchTrace bs ++ [Ev.trackBest])).flatten := by
  induction k with
  | zero => simp [runEpochs_zero]
  | succ k ih =>
    rw [runEpochs_succ, runEpoch_tr, ih, List.replicate_succ',
      List.flatten_append]
    simp [List.append_assoc]

theorem runEpochs_bestAcc_foldl_max (bs : List (List (D × Nat))) (len : Nat)
    (k : Nat) (s : LoopState W) :
    (runEpochs pred lossOf step bs len k s).bestAcc =
      ((List.range k).map (fun j =>
        epochAcc pred step bs len
          (runEpochs pred lossOf step bs len j s).w)).foldl max s.bestAcc := by
  induction k with
  | zero => simp [runEpochs_zero]
  | succ k ih =>
    rw [runEpochs_succ, runEpoch_bestAcc, List.range_succ, List.map_append,
      List.foldl_append, ← ih]
    simp only [List.map_cons, List.map_nil, List.foldl_cons, List.foldl_nil]
    rcases lt_or_le (runEpochs pred lossOf step bs len k s).bestAcc
      (epochAcc pred step bs len (runEpochs pred lossOf step bs len k s).w)
      with h | h
    · rw [if_pos h, max_eq_right h.le]
    · rw [if_neg (not_lt.mpr h), max_eq_left h]

end EpochLemmas

theorem flatMap_const_list {α β : Type} (l : List α) (c : List β) :
    l.flatMap (fun _ => c) = (List.replicate l.length c).flatten := by
  induction l with
  | nil => rfl
  | cons a l ih => simp [List.flatMap_cons, ih, List.replicate_succ]

theorem flatMap_const_range {β : Type} (n : Nat) (c : List β) :
    (List.range n).flatMap (fun _ => c) = (List.replicate n c).flatten := by
  induction n with
  | zero => rfl
  | succ n ih =>
    rw [List.range_succ, List.flatMap_append, ih, List.replicate_succ',
      List.flatten_append]
    simp

theorem specEpochTrace_eq_batchTrace {D : Type}
    (bs : List (List (D × Nat))) :
    specEpochTrace bs.length = batchTrace bs ++ [Ev.trackBest] := by
  rw [specEpochTrace, batchTrace, flatMap_const_range, flatMap_const_list]

section TrainLoopLemmas

variable {W D : Type}
variable (pred : W → D → Nat)
variable (lossOf : W → List (D × Nat) → Rat)
variable (step : W → List (D × Nat) → W)

theorem trainLoop_finalW (epochs : Nat) (pl sv : Bool)
    (loader : DataLoader D) (w0 : W) :
    (trainLoop pred lossOf step epochs pl sv loader w0).finalW =
      (trainLoop pred lossOf step epochs pl sv loader w0).bestW := rfl

theorem trainLoop_saved (epochs : Nat) (pl sv : Bool)
    (loader : DataLoader D) (w0 : W) :
    (trainLoop pred lossOf step epochs pl sv loader w0).saved =
      (if sv then some ((trainLoop pred lossOf step epochs pl sv loader
        w0).bestW) else none) := by
  simp only [trainLoop]
  cases sv <;> simp

theorem trainLoop_tr (epochs : Nat) (pl sv : Bool) (loader : DataLoader D)
    (w0 : W) :
    (trainLoop pred lossOf step epochs pl sv loader w0).tr =
      specTrace epochs loader.batches.length pl sv := by
  have hep : (List.range epochs).flatMap
      (fun _ => specEpochTrace loader.batches.length) =
      (List.replicate epochs (batchTrace loader.batches
        ++ [Ev.trackBest])).flatten := by
    rw [specEpochTrace_eq_batchTrace, flatMap_const_range]
  simp only [trainLoop, specTrace, hep]
  rw [runEpochs_tr]
  cases sv <;> cases pl <;> simp [initState]

end TrainLoopLemmas

section ErrorPathLemmas

variable {W D : Type}
variable (pred : W → D → Nat)
variable (lossOf : W → List (D × Nat) → Rat)
variable (step : W → List (D × Nat) → W)

theorem runEpochE_ok (bs : List (List (D × Nat))) (len : Nat)
    (hlen : len ≠ 0) (s : LoopState W) :
    runEpochE pred lossOf step bs len s =
      .ok (runEpoch pred lossOf step bs len s) := by
  simp only [runEpochE, runEpoch, pydiv, if_neg hlen]
  split <;> rfl

theorem runEpochsE_ok (bs : List (List (D × Nat))) (len : Nat)
    (hlen : len ≠ 0) (k : Nat) (s : LoopState W) :
    runEpochsE pred lossOf step bs len k s =
      .ok (runEpochs pred lossOf step bs len k s) := by
  induction k with
  | zero => rfl
  | succ k ih =>
    rw [runEpochsE, ih, runEpochs_succ]
    exact runEpochE_ok pred lossOf step bs len hlen _

theorem trainLoopE_ok (epochs : Nat) (pl sv : Bool) (loader : DataLoader D)
    (w0 : W) (hlen : loader.datasetLen ≠ 0) :
    trainLoopE pred lossOf step epochs pl sv loader w0 =
      .ok (trainLoop pred lossOf step epochs pl sv loader w0) := by
  rw [trainLoopE, runEpochsE_ok pred lossOf step loader.batches
    loader.datasetLen hlen epochs (initState w0)]
  rfl

end ErrorPathLemmas

section FsLemmas

variable {C : Type}

theorem lookup_filter_append (fs : FS C) (p : String) (c : C) :
    List.lookup p (List.filter (fun e => e.1 ≠ p) fs ++ [(p, c)]) = some c := by
  induction fs with
  | nil => simp [List.lookup]
  | cons e fs ih =>
    by_cases h : e.1 = p
    · simpa [List.filter_cons, h] using ih
    · have hb : (p == e.1) = false := beq_eq_false_iff_ne.mpr (Ne.symm h)
      simp only [List.filter_cons, decide_eq_true (show e.1 ≠ p from h),
        if_pos rfl, List.cons_append, List.lookup, hb]
      exact ih

theorem lookup_fsWrite (fs : FS C) (p : String) (c : C) :
    List.lookup p (fsWrite fs p c) = some c := by
  unfold fsWrite
  exact lookup_filter_append fs p c

theorem lookup_filter_ne (fs : FS C) (p : String) :
    List.lookup p (List.filter (fun e => e.1 ≠ p) fs) = none := by
  induction fs with
  | nil => rfl
  | cons e fs ih =>
    by_cases h : e.1 = p
    · simpa [List.filter_cons, h] using ih
    · have hb : (p == e.1) = false := beq_eq_false_iff_ne.mpr (Ne.symm h)
      simp only [List.filter_cons, decide_eq_true (show e.1 ≠ p from h),
        if_pos rfl, List.lookup, hb]
      exact ih

theorem filter_ne_of_lookup_none (fs : FS C) (p : String)
    (h : List.lookup p fs = none) :
    List.filter (fun e => e.1 ≠ p) fs = fs := by
  induction fs with
  | nil => rfl
  | cons e fs ih =>
    simp only [List.lookup] at h
    rcases hpe : p == e.1 with _ | _
    · rw [hpe] at h
      have hne : e.1 ≠ p := Ne.symm (beq_eq_false_iff_ne.mp hpe)
      have h' : List.lookup p fs = none := by simpa using h
      rw [List.filter_cons_of_pos (by simpa using hne), ih h']
    · rw [hpe] at h
      simp at h

theorem fsRemove_fsWrite (fs : FS C) (p : String) (c : C) :
    fsRemove (fsWrite fs p c) p = List.filter (fun e => e.1 ≠ p) fs := by
  simp only [fsRemove, fsWrite, List.filter_append]
  have h1 : List.filter (fun e => e.1 ≠ p) ([(p, c)] : FS C) = [] := by
    simp [List.filter_cons]
  rw [h1, List.append_nil, List.filter_filter]
  apply List.filter_congr
  intro e _
  simp

theorem get_size_of_model_fst {M : Type} (serialize : M → C)
    (getsize : C → Nat) (fs : FS C) (m : M) :
    (Quantizer.get_size_of_model serialize getsize fs m).1 =
      (getsize (serialize m) : Rat) / 1000000 := by
  simp [Quantizer.get_size_of_model, fsGetSize, lookup_fsWrite]

theorem get_size_of_model_snd {M : Type} (serialize : M → C)
    (getsize : C → Nat) (fs : FS C) (m : M) :
    (Quantizer.get_size_of_model serialize getsize fs m).2 =
      List.filter (fun e => e.1 ≠ "temp.p") fs := by
  simp [Quantizer.get_size_of_model, fsRemove_fsWrite]

end FsLemmas

section AccBounds

theorem sum_batchCorrect_le {W D : Type} (pred : W → D → Nat) (w : W)
    (bs : List (List (D × Nat))) :
    ((bs.map (batchCorrect pred w)).sum : Nat) ≤ (bs.map List.length).sum := by
  induction bs with
  | nil => simp
  | cons b bs ih =>
    simp only [List.map_cons, List.sum_cons]
    exact Nat.add_le_add (List.countP_le_length _) ih

theorem pydiv_pos_bounds (c len : Nat) (hc : c ≤ len) (hlen : 0 < len) :
    pydiv c len = .ok ((c : Rat) / (len : Rat)) ∧
      0 ≤ (c : Rat) / (len : Rat) ∧ (c : Rat) / (len : Rat) ≤ 1 := by
  refine ⟨by simp [pydiv, Nat.pos_iff_ne_zero.mp hlen], ?_, ?_⟩
  · positivity
  · rw [div_le_one (by exact_mod_cast hlen)]
    exact_mod_cast hc

theorem pydiv_zero (c : Nat) : pydiv c 0 = .error .zeroDivisionError := by
  simp [pydiv]

end AccBounds

theorem bestInvariant_holds {W D : Type} (pred : W → D → Nat)
    (lossOf : W → List (D × Nat) → Rat) (step : W → List (D × Nat) → W)
    (bs : List (List (D × Nat))) (len : Nat) (s0 : LoopState W) :
    BestInvariant pred lossOf step bs len s0 := by
  constructor
  · intro k
    refine ⟨fun h => ?_, fun h => ?_⟩
    · rw [runEpochs_succ, runEpoch_bestW, runEpoch_bestAcc, runEpoch_w,
        if_pos h, if_pos h]
      exact ⟨rfl, rfl⟩
    · rw [runEpochs_succ, runEpoch_bestW, runEpoch_bestAcc,
        if_neg h, if_neg h]
      exact ⟨rfl, rfl⟩
  · intro k
    exact runEpochs_bestAcc_foldl_max pred lossOf step bs len k s0

/-- C1: in `train_teacher` / `train_student`, the best-weights snapshot
(`best_teacher_model_weights` / `best_student_model_weights`) tracks the
highest epoch accuracy observed so far: before any epoch it is the model's
initial weights with `best_acc = 0.0`, it is replaced by (a deep copy of)
the current weights exactly when the just-computed epoch accuracy strictly
exceeds the running best, otherwise it stays unchanged, and the running
best is the maximum of the accuracies observed so far. -/
theorem c1_best_weights_invariant {W Ws Wt D : Type} (pred : W → D → Nat)
    (ce : W → List (D × Nat) → Rat) (st : W → List (D × Nat) → W)
    (predS : Ws → D → Nat) (kd : Ws → Wt → List (D × Nat) → Rat) (tw : Wt)
    (stS : Ws → List (D × Nat) → Ws) (epochs : Nat) (pl sv : Bool)
    (loader : DataLoader D) (w0 : W) (w0s : Ws)
    (hlen : 0 < loader.datasetLen) :
    ((train_teacher pred ce st epochs pl sv loader w0).bestW =
      (runEpochs pred ce st loader.batches loader.datasetLen epochs
        (initState w0)).bestW)
    ∧ ((train_student predS kd tw stS epochs pl sv loader w0s).bestW =
      (runEpochs predS (fun w b => kd w tw b) stS loader.batches
        loader.datasetLen epochs (initState w0s)).bestW)
    ∧ (initState w0).bestW = w0 ∧ (initState w0).bestAcc = 0
    ∧ (initState w0s).bestW = w0s ∧ (initState w0s).bestAcc = 0
    ∧ BestInvariant pred ce st loader.batches loader.datasetLen
        (initState w0)
    ∧ BestInvariant predS (fun w b => kd w tw b) stS loader.batches
        loader.datasetLen (initState w0s) :=
  ⟨rfl, rfl, rfl, rfl, rfl, rfl,
    bestInvariant_holds pred ce st loader.batches loader.datasetLen
      (initState w0),
    bestInvariant_holds predS (fun w b => kd w tw b) stS loader.batches
      loader.datasetLen (initState w0s)⟩

theorem c1_best_weights_invariant_witness :
    0 < (DataLoader.mk [[((0 : Nat), 0)]] 1).datasetLen ∧
    (((train_teacher (fun w _ => w) (fun _ _ => 0) (fun w _ => w) 1 false
        false (DataLoader.mk [[((0 : Nat), 0)]] 1) (0 : Nat)).bestW =
      (runEpochs (fun w _ => w) (fun _ _ => 0) (fun w _ => w)
        (DataLoader.mk [[((0 : Nat), 0)]] 1).batches
        (DataLoader.mk [[((0 : Nat), 0)]] 1).datasetLen 1
        (initState (0 : Nat))).bestW)
    ∧ ((train_student (fun w _ => w) (fun _ (_ : Nat) _ => 0) 0
        (fun w _ => w) 1 false false
        (DataLoader.mk [[((0 : Nat), 0)]] 1) (0 : Nat)).bestW =
      (runEpochs (fun w _ => w) (fun w b => (fun _ (_ : Nat) _ => (0 : Rat)) w 0 b)
        (fun w _ => w) (DataLoader.mk [[((0 : Nat), 0)]] 1).batches
        (DataLoader.mk [[((0 : Nat), 0)]] 1).datasetLen 1
        (initState (0 : Nat))).bestW)
    ∧ (initState (0 : Nat)).bestW = 0 ∧ (initState (0 : Nat)).bestAcc = 0
    ∧ (initState (0 : Nat)).bestW = 0 ∧ (initState (0 : Nat)).bestAcc = 0
    ∧ BestInvariant (fun w _ => w) (fun _ _ => 0) (fun w _ => w)
        (DataLoader.mk [[((0 : Nat), 0)]] 1).batches
        (DataLoader.mk [[((0 : Nat), 0)]] 1).datasetLen
        (initState (0 : Nat))
    ∧ BestInvariant (fun w _ => w)
        (fun w b => (fun _ (_ : Nat) _ => (0 : Rat)) w 0 b) (fun w _ => w)
        (DataLoader.mk [[((0 : Nat), 0)]] 1).batches
        (DataLoader.mk [[((0 : Nat), 0)]] 1).datasetLen
        (initState (0 : Nat))) :=
  ⟨by decide,
    c1_best_weights_invariant (fun w _ => w) (fun _ _ => 0) (fun w _ => w)
      (fun w _ => w) (fun _ (_ : Nat) _ => 0) 0 (fun w _ => w) 1 false false
      (DataLoader.mk [[((0 : Nat), 0)]] 1) 0 0 (by decide)⟩

/-- C2: after `train_teacher` (resp. `train_student`) returns, the model's
parameters equal the best-checkpoint snapshot tracked during training
(`load_state_dict` of the best weights), and the state dict written by
`torch.save` — present exactly when `save_model` — equals that snapshot. -/
theorem c2_train_restores_best {W Ws Wt D : Type} (pred : W → D → Nat)
    (ce : W → List (D × Nat) → Rat) (st : W → List (D × Nat) → W)
    (predS : Ws → D → Nat) (kd : Ws → Wt → List (D × Nat) → Rat) (tw : Wt)
    (stS : Ws → List (D × Nat) → Ws) (epochs : Nat) (pl sv : Bool)
    (loader : DataLoader D) (w0 : W) (w0s : Ws) :
    ((train_teacher pred ce st epochs pl sv loader w0).finalW =
      (train_teacher pred ce st epochs pl sv loader w0).bestW)
    ∧ ((train_teacher pred ce st epochs pl sv loader w0).saved =
      (if sv then some ((train_teacher pred ce st epochs pl sv loader
        w0).bestW) else none))
    ∧ ((train_student predS kd tw stS epochs pl sv loader w0s).finalW =
      (train_student predS kd tw stS epochs pl sv loader w0s).bestW)
    ∧ ((train_student predS kd tw stS epochs pl sv loader w0s).saved =
      (if sv then some ((train_student predS kd tw stS epochs pl sv loader
        w0s).bestW) else none)) :=
  ⟨rfl, trainLoop_saved pred ce st epochs pl sv loader w0, rfl,
    trainLoop_saved predS (fun w b => kd w tw b) stS epochs pl sv loader w0s⟩

/-- C3 counterexample: with an empty training dataset
(`len(train_loader.dataset) = 0`) and `epochs = 1`, `train_teacher` and
`train_student` raise `ZeroDivisionError` at
`epoch_acc = correct / length_of_dataset` during the first epoch and never
reach `load_state_dict`, `torch.save` or `plt.plot`, so the claim does not
hold of every call. -/
theorem c3_counterexample :
    train_teacherE (fun (w : Nat) (_ : Nat) => w) (fun _ _ => (0 : Rat))
      (fun w _ => w) 1 true true (DataLoader.mk [] 0) 0 =
      Except.error PyErr.zeroDivisionError
    ∧ train_studentE (fun (w : Nat) (_ : Nat) => w)
      (fun _ (_ : Nat) _ => (0 : Rat)) 0 (fun w _ => w) 1 true true
      (DataLoader.mk [] 0) 0 = Except.error PyErr.zeroDivisionError :=
  ⟨rfl, rfl⟩

/-- C3 (amended): every call of `train_teacher` / `train_student` whose
training dataset is non-empty raises no exception and performs exactly
`epochs` sequential epochs, each of which processes every batch in order
with forward pass, loss computation, `zero_grad`, `backward`, optimizer
step, then tracks best weights once after the batch loop; only after all
epochs does it load the best weights, save the model (if `save_model`) and
plot the loss array (if `plot_losses`), in that order: the error-aware
call completes with the total-loop result, whose event trace equals the
trace `specTrace` built from the spec's description.  (With an empty
dataset the call instead raises `ZeroDivisionError` in the first epoch,
see the counterexample.) -/
theorem c3_order_of_operations {W Ws Wt D : Type} (pred : W → D → Nat)
    (ce : W → List (D × Nat) → Rat) (st : W → List (D × Nat) → W)
    (predS : Ws → D → Nat) (kd : Ws → Wt → List (D × Nat) → Rat) (tw : Wt)
    (stS : Ws → List (D × Nat) → Ws) (epochs : Nat) (pl sv : Bool)
    (loader : DataLoader D) (w0 : W) (w0s : Ws)
    (hlen : 0 < loader.datasetLen) :
    (train_teacherE pred ce st epochs pl sv loader w0 =
      Except.ok (train_teacher pred ce st epochs pl sv loader w0))
    ∧ ((train_teacher pred ce st epochs pl sv loader w0).tr =
      specTrace epochs loader.batches.length pl sv)
    ∧ (train_studentE predS kd tw stS epochs pl sv loader w0s =
      Except.ok (train_student predS kd tw stS epochs pl sv loader w0s))
    ∧ ((train_student predS kd tw stS epochs pl sv loader w0s).tr =
      specTrace epochs loader.batches.length pl sv) :=
  ⟨trainLoopE_ok pred ce st epochs pl sv loader w0
      (Nat.pos_iff_ne_zero.mp hlen),
    trainLoop_tr pred ce st epochs pl sv loader w0,
    trainLoopE_ok predS (fun w b => kd w tw b) stS epochs pl sv loader w0s
      (Nat.pos_iff_ne_zero.mp hlen),
    trainLoop_tr predS (fun w b => kd w tw b) stS epochs pl sv loader w0s⟩

theorem c3_order_of_operations_witness :
    0 < (DataLoader.mk [[((0 : Nat), 0)]] 1).datasetLen ∧
    ((train_teacherE (fun (w : Nat) (_ : Nat) => w) (fun _ _ => 0)
        (fun w _ => w) 1 false false (DataLoader.mk [[((0 : Nat), 0)]] 1)
        0 =
      Except.ok (train_teacher (fun (w : Nat) (_ : Nat) => w) (fun _ _ => 0)
        (fun w _ => w) 1 false false (DataLoader.mk [[((0 : Nat), 0)]] 1)
        0))
    ∧ ((train_teacher (fun (w : Nat) (_ : Nat) => w) (fun _ _ => 0)
        (fun w _ => w) 1 false false (DataLoader.mk [[((0 : Nat), 0)]] 1)
        0).tr =
      specTrace 1 (DataLoader.mk [[((0 : Nat), 0)]] 1).batches.length false
        false)
    ∧ (train_studentE (fun (w : Nat) (_ : Nat) => w)
        (fun _ (_ : Nat) _ => 0) 0 (fun w _ => w) 1 false false
        (DataLoader.mk [[((0 : Nat), 0)]] 1) 0 =
      Except.ok (train_student (fun (w : Nat) (_ : Nat) => w)
        (fun _ (_ : Nat) _ => 0) 0 (fun w _ => w) 1 false false
        (DataLoader.mk [[((0 : Nat), 0)]] 1) 0))
    ∧ ((train_student (fun (w : Nat) (_ : Nat) => w)
        (fun _ (_ : Nat) _ => 0) 0 (fun w _ => w) 1 false false
        (DataLoader.mk [[((0 : Nat), 0)]] 1) 0).tr =
      specTrace 1 (DataLoader.mk [[((0 : Nat), 0)]] 1).batches.length false
        false)) :=
  ⟨by decide,
    c3_order_of_operations (fun w _ => w) (fun _ _ => 0) (fun w _ => w)
      (fun w _ => w) (fun _ (_ : Nat) _ => 0) 0 (fun w _ => w) 1 false
      false (DataLoader.mk [[((0 : Nat), 0)]] 1) 0 0 (by decide)⟩

/-- C4: the constructors of `BaseClass` and `Quantizer` store every
supplied argument unchanged in the corresponding attribute (the parameter
`distil_weight` lands in the attribute spelled `distl_weight` in the
source). -/
theorem c4_constructors_store_arguments
    {Wt Ws D OT OS M Q D2 OPT CR : Type} (tm : Model Wt) (sm : Model Ws)
    (tl vl : DataLoader D) (ot : OT) (os' : OS) (lossArg : String)
    (temp dw : Rat) (dev : String) (m : M) (qc : Q)
    (qtl qte : Option (DataLoader D2)) (opt : Option OPT) (cr : Option CR)
    (qdev : String) :
    ((BaseClass.init tm sm tl vl ot os' lossArg temp dw dev).teacher_model = tm
    ∧ (BaseClass.init tm sm tl vl ot os' lossArg temp dw dev).student_model = sm
    ∧ (BaseClass.init tm sm tl vl ot os' lossArg temp dw dev).train_loader = tl
    ∧ (BaseClass.init tm sm tl vl ot os' lossArg temp dw dev).val_loader = vl
    ∧ (BaseClass.init tm sm tl vl ot os' lossArg temp dw dev).optimizer_teacher = ot
    ∧ (BaseClass.init tm sm tl vl ot os' lossArg temp dw dev).optimizer_student = os'
    ∧ (BaseClass.init tm sm tl vl ot os' lossArg temp dw dev).loss = lossArg
    ∧ (BaseClass.init tm sm tl vl ot os' lossArg temp dw dev).temp = temp
    ∧ (BaseClass.init tm sm tl vl ot os' lossArg temp dw dev).distl_weight = dw
    ∧ (BaseClass.init tm sm tl vl ot os' lossArg temp dw dev).device = dev)
    ∧ ((Quantizer.init m qc qtl qte opt cr qdev).model = m
    ∧ (Quantizer.init m qc qtl qte opt cr qdev).qconfig = qc
    ∧ (Quantizer.init m qc qtl qte opt cr qdev).train_loader = qtl
    ∧ (Quantizer.init m qc qtl qte opt cr qdev).test_loader = qte
    ∧ (Quantizer.init m qc qtl qte opt cr qdev).optimizer = opt
    ∧ (Quantizer.init m qc qtl qte opt cr qdev).criterion = cr
    ∧ (Quantizer.init m qc qtl qte opt cr qdev).device = qdev) :=
  ⟨⟨rfl, rfl, rfl, rfl, rfl, rfl, rfl, rfl, rfl, rfl⟩,
    rfl, rfl, rfl, rfl, rfl, rfl, rfl⟩

/-- C6: on the base classes, `Quantizer.quantize` and
`BaseClass.calculate_kd_loss` raise `NotImplementedError`, leaving the
instance's state unchanged. -/
theorem c6_base_methods_raise {M Q D OPT CR Wt Ws D2 OT OS Y : Type}
    (q : Quantizer M Q D OPT CR) (s : BaseClass Wt Ws D2 OT OS)
    (y_pred_student y_pred_teacher y_true : Y) :
    Quantizer.quantize q = (Except.error PyErr.notImplementedError, q)
    ∧ BaseClass.calculate_kd_loss s y_pred_student y_pred_teacher y_true =
      (Except.error PyErr.notImplementedError, s) :=
  ⟨rfl, rfl⟩

/-- C8: immediately after `Quantizer.__init__`, `quantized_model` is the
same value as `model`; consequently `get_model_sizes` reports two equal
sizes and `get_performance_statistics` computes the same accuracy twice. -/
theorem c8_quantized_model_alias {M Q D OPT CR C : Type} (m : M) (qc : Q)
    (qtl qte : Option (DataLoader D)) (opt : Option OPT) (cr : Option CR)
    (dev : String) (serialize : M → C) (getsize : C → Nat) (fs : FS C)
    (predQ : M → D → Nat) (testLoader : DataLoader D) :
    ((Quantizer.init m qc qtl qte opt cr dev).quantized_model =
      (Quantizer.init m qc qtl qte opt cr dev).model)
    ∧ ((Quantizer.get_model_sizes serialize getsize
        (Quantizer.init m qc qtl qte opt cr dev) fs).1.1 =
      (Quantizer.get_model_sizes serialize getsize
        (Quantizer.init m qc qtl qte opt cr dev) fs).1.2)
    ∧ ((Quantizer.get_performance_statistics predQ testLoader
        (Quantizer.init m qc qtl qte opt cr dev)).1 =
      (Quantizer.get_performance_statistics predQ testLoader
        (Quantizer.init m qc qtl qte opt cr dev)).2) := by
  refine ⟨rfl, ?_, rfl⟩
  simp only [Quantizer.get_model_sizes]
  rw [get_size_of_model_fst, get_size_of_model_fst]
  rfl

/-- C9: `BaseClass.evaluate` runs inference on a deep copy of the selected
model: for either value of `teacher` the stored `teacher_model` and
`student_model` (weights and train/eval mode) are unchanged, and the only
output is the printed accuracy of the selected model's stored weights over
`val_loader`. -/
theorem c9_evaluate_frame {Wt Ws D OT OS : Type} (predT : Wt → D → Nat)
    (predS : Ws → D → Nat) (s : BaseClass Wt Ws D OT OS) :
    (∀ teacher : Bool, (BaseClass.evaluate predT predS s teacher).2 = s)
    ∧ ((BaseClass.evaluate predT predS s true).1 =
      pydiv ((s.val_loader.batches.map
        (batchCorrect predT s.teacher_model.weights)).sum)
        s.val_loader.datasetLen)
    ∧ ((BaseClass.evaluate predT predS s false).1 =
      pydiv ((s.val_loader.batches.map
        (batchCorrect predS s.student_model.weights)).sum)
        s.val_loader.datasetLen) := by
  refine ⟨fun t => ?_, rfl, rfl⟩
  cases t <;> rfl

theorem metricsSpec_holds {W D : Type} (pred : W → D → Nat)
    (lossOf : W → List (D × Nat) → Rat) (step : W → List (D × Nat) → W)
    (epochs : Nat) (pl sv : Bool) (loader : DataLoader D) (w0 : W) :
    MetricsSpec pred lossOf step epochs pl sv loader w0 := by
  refine ⟨fun w => ?_, fun w => ?_, fun w => ?_, fun k => ?_, ?_⟩
  · rw [foldl_runBatch_epochLoss]
    simp
  · rw [foldl_runBatch_correct]
    simp
  · rw [epochAcc, foldl_runBatch_correct]
    simp
  · rw [runEpochs_succ, runEpoch_lossArr]
  · show (trainLoop pred lossOf step epochs pl sv loader w0).lossArr.length
      = epochs
    have h1 : (trainLoop pred lossOf step epochs pl sv loader w0).lossArr =
        (runEpochs pred lossOf step loader.batches loader.datasetLen epochs
          (initState w0)).lossArr := rfl
    rw [h1, runEpochs_lossArr_length]
    simp [initState]

/-- C5: in every epoch of `train_teacher` / `train_student` the accumulated
`epoch_loss` equals the sum of the per-batch losses of that epoch, the
accumulated `correct` count equals the sum of the per-batch correct counts
and the epoch accuracy equals that count divided by
`len(train_loader.dataset)`, exactly one loss entry (the epoch's loss sum)
is appended to `loss_arr` per epoch, and the array has length `epochs`
when the function returns. -/
theorem c5_epoch_metrics {W Ws Wt D : Type} (pred : W → D → Nat)
    (ce : W → List (D × Nat) → Rat) (st : W → List (D × Nat) → W)
    (predS : Ws → D → Nat) (kd : Ws → Wt → List (D × Nat) → Rat) (tw : Wt)
    (stS : Ws → List (D × Nat) → Ws) (epochs : Nat) (pl sv : Bool)
    (loader : DataLoader D) (w0 : W) (w0s : Ws)
    (hlen : 0 < loader.datasetLen) :
    MetricsSpec pred ce st epochs pl sv loader w0
    ∧ MetricsSpec predS (fun w b => kd w tw b) stS epochs pl sv loader w0s
    ∧ (train_teacher pred ce st epochs pl sv loader w0).lossArr.length =
        epochs
    ∧ (train_student predS kd tw stS epochs pl sv loader w0s).lossArr.length =
        epochs :=
  ⟨metricsSpec_holds pred ce st epochs pl sv loader w0,
    metricsSpec_holds predS (fun w b => kd w tw b) stS epochs pl sv loader
      w0s,
    (metricsSpec_holds pred ce st epochs pl sv loader w0).2.2.2.2,
    (metricsSpec_holds predS (fun w b => kd w tw b) stS epochs pl sv loader
      w0s).2.2.2.2⟩

theorem c5_epoch_metrics_witness :
    0 < (DataLoader.mk [[((0 : Nat), 0)]] 1).datasetLen ∧
    (MetricsSpec (fun w _ => w) (fun _ _ => 0) (fun w _ => w) 1 false false
        (DataLoader.mk [[((0 : Nat), 0)]] 1) (0 : Nat)
    ∧ MetricsSpec (fun w _ => w)
        (fun w b => (fun _ (_ : Nat) _ => (0 : Rat)) w 0 b) (fun w _ => w)
        1 false false (DataLoader.mk [[((0 : Nat), 0)]] 1) (0 : Nat)
    ∧ (train_teacher (fun w _ => w) (fun _ _ => 0) (fun w _ => w) 1 false
        false (DataLoader.mk [[((0 : Nat), 0)]] 1) (0 : Nat)).lossArr.length
        = 1
    ∧ (train_student (fun w _ => w) (fun _ (_ : Nat) _ => 0) 0
        (fun w _ => w) 1 false false (DataLoader.mk [[((0 : Nat), 0)]] 1)
        (0 : Nat)).lossArr.length = 1) :=
  ⟨by decide,
    c5_epoch_metrics (fun w _ => w) (fun _ _ => 0) (fun w _ => w)
      (fun w _ => w) (fun _ (_ : Nat) _ => 0) 0 (fun w _ => w) 1 false false
      (DataLoader.mk [[((0 : Nat), 0)]] 1) 0 0 (by decide)⟩

/-- C7 counterexample: `_get_size_of_model` does NOT leave the filesystem
unchanged after every call: when a file named `temp.p` already exists, it
is overwritten by `torch.save` and then deleted by `os.remove`, so the
resulting filesystem differs from the initial one. -/
theorem c7_counterexample :
    ¬ ((Quantizer.get_size_of_model (fun n : Nat => n) (fun n : Nat => n)
      [("temp.p", 5)] 3).2 = [("temp.p", 5)]) := by
  rw [get_size_of_model_snd]
  decide

/-- C7 (amended): `_get_size_of_model` returns the byte size of the
serialized state dict divided by 1e6, and removes `temp.p`; provided no
file named `temp.p` existed beforehand, the filesystem is left unchanged
(a pre-existing `temp.p` is overwritten and then deleted). -/
theorem c7_get_size_of_model {M C : Type} (serialize : M → C)
    (getsize : C → Nat) (fs : FS C) (m : M)
    (h : List.lookup "temp.p" fs = none) :
    (Quantizer.get_size_of_model serialize getsize fs m).1 =
      (getsize (serialize m) : Rat) / 1000000
    ∧ List.lookup "temp.p"
      (Quantizer.get_size_of_model serialize getsize fs m).2 = none
    ∧ (Quantizer.get_size_of_model serialize getsize fs m).2 = fs := by
  refine ⟨get_size_of_model_fst serialize getsize fs m, ?_, ?_⟩
  · rw [get_size_of_model_snd]
    exact lookup_filter_ne fs "temp.p"
  · rw [get_size_of_model_snd]
    exact filter_ne_of_lookup_none fs "temp.p" h

theorem c7_get_size_of_model_witness :
    List.lookup "temp.p" ([("a", 2)] : FS Nat) = none ∧
    ((Quantizer.get_size_of_model (fun n : Nat => n) (fun n : Nat => n)
        [("a", 2)] 3).1 =
      (((fun n : Nat => n) ((fun n : Nat => n) 3) : Nat) : Rat) / 1000000
    ∧ List.lookup "temp.p" (Quantizer.get_size_of_model (fun n : Nat => n)
        (fun n : Nat => n) [("a", 2)] 3).2 = none
    ∧ (Quantizer.get_size_of_model (fun n : Nat => n) (fun n : Nat => n)
        [("a", 2)] 3).2 = [("a", 2)]) :=
  ⟨by decide,
    c7_get_size_of_model (fun n : Nat => n) (fun n : Nat => n) [("a", 2)] 3
      (by decide)⟩

/-- C10: `BaseClass.evaluate` and `Quantizer._evaluate_model` divide the
correct count by the dataset length without a guard: for a well-formed,
non-empty dataset the accuracy is a well-defined value in [0,1]; for an
empty dataset the computation fails with `ZeroDivisionError`. -/
theorem c10_accuracy_division {Wt Ws D M D2 OT OS : Type}
    (predT : Wt → D → Nat) (predS : Ws → D → Nat)
    (s : BaseClass Wt Ws D OT OS) (t : Bool) (predQ : M → D2 → Nat)
    (tl : DataLoader D2) (m : M)
    (hval : (s.val_loader.batches.map List.length).sum =
      s.val_loader.datasetLen)
    (htest : (tl.batches.map List.length).sum = tl.datasetLen) :
    C10Statement predT predS s t predQ tl m := by
  refine ⟨fun hpos => ?_, fun hzero => ?_, fun hpos => ?_, fun hzero => ?_⟩
  · cases t
    · refine ⟨((s.val_loader.batches.map
        (batchCorrect predS s.student_model.weights)).sum : Rat) /
          (s.val_loader.datasetLen : Rat), ?_⟩
      have hle : (s.val_loader.batches.map
          (batchCorrect predS s.student_model.weights)).sum ≤
          s.val_loader.datasetLen := by
        rw [← hval]
        exact sum_batchCorrect_le predS s.student_model.weights
          s.val_loader.batches
      have := pydiv_pos_bounds _ _ hle hpos
      exact ⟨this.1, this.2.1, this.2.2⟩
    · refine ⟨((s.val_loader.batches.map
        (batchCorrect predT s.teacher_model.weights)).sum : Rat) /
          (s.val_loader.datasetLen : Rat), ?_⟩
      have hle : (s.val_loader.batches.map
          (batchCorrect predT s.teacher_model.weights)).sum ≤
          s.val_loader.datasetLen := by
        rw [← hval]
        exact sum_batchCorrect_le predT s.teacher_model.weights
          s.val_loader.batches
      have := pydiv_pos_bounds _ _ hle hpos
      exact ⟨this.1, this.2.1, this.2.2⟩
  · cases t
    · show pydiv _ s.val_loader.datasetLen = _
      rw [hzero]
      exact pydiv_zero _
    · show pydiv _ s.val_loader.datasetLen = _
      rw [hzero]
      exact pydiv_zero _
  · refine ⟨((tl.batches.map (batchCorrect predQ m)).sum : Rat) /
      (tl.datasetLen : Rat), ?_⟩
    have hle : (tl.batches.map (batchCorrect predQ m)).sum ≤
        tl.datasetLen := by
      rw [← htest]
      exact sum_batchCorrect_le predQ m tl.batches
    have := pydiv_pos_bounds _ _ hle hpos
    exact ⟨this.1, this.2.1, this.2.2⟩
  · show pydiv _ tl.datasetLen = _
    rw [hzero]
    exact pydiv_zero _

theorem c10_accuracy_division_witness :
    ((BaseClass.init (Model.mk (0 : Nat) Mode.trainMode)
        (Model.mk (0 : Nat) Mode.trainMode)
        (DataLoader.mk [[((0 : Nat), 0)]] 1)
        (DataLoader.mk [[((0 : Nat), 0)]] 1) (0 : Nat) (0 : Nat) "MSE" 20
        (1 / 2) "cpu").val_loader.batches.map List.length).sum =
      (BaseClass.init (Model.mk (0 : Nat) Mode.trainMode)
        (Model.mk (0 : Nat) Mode.trainMode)
        (DataLoader.mk [[((0 : Nat), 0)]] 1)
        (DataLoader.mk [[((0 : Nat), 0)]] 1) (0 : Nat) (0 : Nat) "MSE" 20
        (1 / 2) "cpu").val_loader.datasetLen ∧
    ((DataLoader.mk [[((0 : Nat), 0)]] 1).batches.map List.length).sum =
      (DataLoader.mk [[((0 : Nat), 0)]] 1).datasetLen ∧
    C10Statement (fun (w : Nat) (_ : Nat) => w) (fun (w : Nat) _ => w)
      (BaseClass.init (Model.mk (0 : Nat) Mode.trainMode)
        (Model.mk (0 : Nat) Mode.trainMode)
        (DataLoader.mk [[((0 : Nat), 0)]] 1)
        (DataLoader.mk [[((0 : Nat), 0)]] 1) (0 : Nat) (0 : Nat) "MSE" 20
        (1 / 2) "cpu") true (fun (w : Nat) (_ : Nat) => w)
      (DataLoader.mk [[((0 : Nat), 0)]] 1) 0 :=
  ⟨by decide, by decide,
    c10_accuracy_division (fun w _ => w) (fun w _ => w)
      (BaseClass.init (Model.mk 0 Mode.trainMode) (Model.mk 0 Mode.trainMode)
        (DataLoader.mk [[((0 : Nat), 0)]] 1)
        (DataLoader.mk [[((0 : Nat), 0)]] 1) 0 0 "MSE" 20 (1 / 2) "cpu")
      true (fun w _ => w) (DataLoader.mk [[((0 : Nat), 0)]] 1) 0
      (by decide) (by decide)⟩
